/-
Verification of the Fabric Snapshot Collection & Comparison Engine.

This file gives a shallow embedding, in Lean, of the core data model and
operations of the snapshot engine (collectors, connection manager, snapshot
store, diff engine, inventory parsing) and proves the specified properties
about them.  Python dictionaries are modelled as association lists in
insertion order, Python values as the inductive type PyVal, timestamps as
rationals (seconds), and fallible operations as Option-valued functions
(none models a raised exception or a null return).
-/
import Mathlib


/-! ## Python value model

A model of the dynamically-typed values that flow through the engine:
JSON payloads, normalized metric structures and the entries of collection
dictionaries.  Floats do not occur in any counted field, so numbers are
integers; Python booleans are a subtype of int and are modelled separately
but coerce to integers where Python arithmetic would coerce them. -/

inductive PyVal where
  | int (n : Int)
  | str (s : String)
  | bool (b : Bool)
  | list (xs : List PyVal)
  | dict (kvs : List (String × PyVal))
  | none
deriving Repr, BEq

/-- Association-list lookup in insertion order, modelling `d[key]` /
`key in d` on a Python dict (keys are unique in a real dict, so the first
match is the binding). -/
def alookup (key : String) : List (String × PyVal) → Option PyVal
  | [] => Option.none
  | (k, v) :: rest => if k = key then some v else alookup key rest

/-- Python `isinstance(v, int)`: true for int and for bool (bool is a
subclass of int in Python). -/
def pyIsInt : PyVal → Bool
  | .int _ => true
  | .bool _ => true
  | _ => false

/-- Numeric value of a Python int-or-bool, used where Python arithmetic
would coerce; none models a TypeError for non-numeric operands. -/
def pyNumVal : PyVal → Option Int
  | .int n => some n
  | .bool b => some (if b then 1 else 0)
  | _ => Option.none

/-- Rendering of a value inside an f-string, as far as the engine needs it
(the values interpolated into change messages are ints or bools). -/
def pyStr : PyVal → String
  | .int n => toString n
  | .str s => s
  | .bool b => if b then "True" else "False"
  | .list _ => "[...]"
  | .dict _ => "{...}"
  | .none => "None"

/-! ## Python string helpers

Character-list based models of the Python string operations the engine
uses, so that their properties are provable by list induction. -/

/-- Python whitespace characters (as recognised by `str.split()` and
`str.strip()`). -/
def pyIsSpace (c : Char) : Bool :=
  c = ' ' || c = '\t' || c = '\n' || c = '\x0d' || c = '\x0b' || c = '\x0c'

/-- Remove leading and trailing characters satisfying p. -/
def stripBy (p : Char → Bool) (cs : List Char) : List Char :=
  ((cs.dropWhile p).reverse.dropWhile p).reverse

/-- Python `s.strip()`. -/
def pyStrip (s : String) : String :=
  ⟨stripBy pyIsSpace s.data⟩

/-- Split a character list at every occurrence of sep, keeping empty
pieces (the semantics of Python `s.split('\n')`). -/
def splitAtChar (sep : Char) : List Char → List (List Char)
  | [] => [[]]
  | c :: cs =>
      let rest := splitAtChar sep cs
      if c = sep then [] :: rest
      else match rest with
        | [] => [[c]]
        | piece :: more => (c :: piece) :: more

/-- Python `s.split('\n')`. -/
def pySplitNl (s : String) : List String :=
  (splitAtChar '\n' s.data).map (fun cs => ⟨cs⟩)

/-- Maximal runs of non-whitespace characters. -/
def wordsAux (acc : List Char) : List Char → List (List Char)
  | [] => if acc.isEmpty then [] else [acc.reverse]
  | c :: cs =>
      if pyIsSpace c then
        if acc.isEmpty then wordsAux [] cs
        else acc.reverse :: wordsAux [] cs
      else wordsAux (c :: acc) cs

/-- Python `s.split()` with no argument: split on whitespace runs,
discarding empty fields. -/
def pySplitWs (s : String) : List String :=
  (wordsAux [] s.data).map (fun cs => ⟨cs⟩)

/-- Python `s.lower()` (the engine only lowercases ASCII names). -/
def pyLower (s : String) : String :=
  ⟨s.data.map Char.toLower⟩

/-- Python `s.startswith(p)`. -/
def pyStartsWith (p s : String) : Bool :=
  p.data.isPrefixOf s.data

/-- Python `sub in s` on strings: substring containment. -/
def pyContains (sub s : String) : Bool :=
  decide (sub.data <:+: s.data)

/-! ## BaseCollector (collectors/base_collector.py)

The collection result record produced by `BaseCollector.end_collection`.
Timestamps are seconds as rationals; the data payload type varies per
collector and is a type parameter. -/

structure CollectionResult (α : Type) where
  collector : String
  start_time : ℚ
  end_time : ℚ
  duration_seconds : ℚ
  errors : List String
  data : α
deriving Repr

namespace BaseCollector

/-- Model of `BaseCollector.end_collection`: stamps the end time and
derives the duration from the start time recorded by `start_collection`.
The accumulated error list and collected data are passed explicitly
(Lean state-passing for the Python instance attributes). -/
def end_collection (name : String) (collection_time end_time : ℚ)
    (errors : List String) (data : α) : CollectionResult α :=
  { collector := name
    start_time := collection_time
    end_time := end_time
    duration_seconds := end_time - collection_time
    errors := errors
    data := data }

end BaseCollector

/-! ## SnapshotManager rollup (snapshot_manager.py, create_overall_summary) -/

namespace SnapshotManager

/-- Total error count as the loop in `create_overall_summary` accumulates
it: the error-list length of every present collection result, plus one
error for every collection whose entry is missing (falsy) in the map. -/
def totalErrors : List (String × Option (CollectionResult α)) → Nat
  | [] => 0
  | (_, some d) :: rest => d.errors.length + totalErrors rest
  | (_, Option.none) :: rest => 1 + totalErrors rest

/-- The health tier written by `create_overall_summary`, keyed on the
total error count exactly as the code branches. -/
def overallStatus (collections : List (String × Option (CollectionResult α))) : String :=
  if totalErrors collections = 0 then "HEALTHY"
  else if totalErrors collections ≤ 3 then "WARNING"
  else "CRITICAL"

end SnapshotManager

/-! ## Connection manager (aci_client.py)

`APICClient` keeps per-controller authentication state; `FabricClient`
holds the shared primary session and iterates the priority-sorted
controller list on connect.  The network is modelled as a function from
(endpoint, params) to an optional JSON value: none stands for a request
exception or a JSON decode error. -/

namespace AciClient

/-- The `DeviceInfo` dataclass local to aci_client.py (node_id is kept as
an optional string there, priority as an optional int). -/
structure DeviceInfo where
  name : String
  hostname : String
  device_type : String
  node_id : Option String := Option.none
  priority : Option Int := Option.none
deriving Repr, DecidableEq

/-- The sort key `x.priority or 1` used by `FabricClient.__init__`:
Python `or` replaces both `None` and the falsy `0` by 1. -/
def priorityOr1 (d : DeviceInfo) : Int :=
  match d.priority with
  | Option.none => 1
  | some p => if p = 0 then 1 else p

/-- The ordered controller list built in `FabricClient.__init__`:
`sorted(apic_devices, key=lambda x: x.priority or 1)` (a stable ascending
sort, which `List.insertionSort` with a ≤ key relation reproduces). -/
def sortedApics (apic_devices : List DeviceInfo) : List DeviceInfo :=
  List.insertionSort (fun a b => priorityOr1 a ≤ priorityOr1 b) apic_devices

/-- A controller session as far as the data path observes it. -/
structure APICClient where
  hostname : String
  is_authenticated : Bool
deriving Repr, DecidableEq

/-- Model of `APICClient.get_data`: returns None when unauthenticated,
otherwise the network outcome for the endpoint (None on request or JSON
errors). -/
def APICClient.get_data (c : APICClient)
    (net : String → Option String → Option PyVal)
    (endpoint : String) (params : Option String) : Option PyVal :=
  if c.is_authenticated then net endpoint params else Option.none

/-- The fabric client state relevant to the data path: the shared primary
session established by `connect_to_fabric`. -/
structure FabricClient where
  primary_apic : Option APICClient
deriving Repr, DecidableEq

/-- Model of `FabricClient.connect_to_fabric`'s loop over the sorted
controller list: the first controller that authenticates becomes the
primary; none if all fail.  `auth` is the outcome of
`APICClient.authenticate` per controller. -/
def connectLoop (auth : DeviceInfo → Bool) : List DeviceInfo → Option DeviceInfo
  | [] => Option.none
  | d :: ds => if auth d then some d else connectLoop auth ds

/-- The controllers the loop actually attempts, in order (every failing
one followed by the first success, if any). -/
def connectAttempts (auth : DeviceInfo → Bool) : List DeviceInfo → List DeviceInfo
  | [] => []
  | d :: ds => if auth d then [d] else d :: connectAttempts auth ds

/-- `FabricClient.connect_to_fabric` composed with the constructor's
priority sort: the device whose session becomes the primary session. -/
def connect_to_fabric (auth : DeviceInfo → Bool)
    (apic_devices : List DeviceInfo) : Option DeviceInfo :=
  connectLoop auth (sortedApics apic_devices)

/-- Model of `FabricClient.get_fabric_data`: proxies through the primary
session and also returns the (unchanged) client state, making explicit
that the call mutates no bookkeeping of its own. -/
def FabricClient.get_fabric_data (fc : FabricClient)
    (net : String → Option String → Option PyVal)
    (endpoint : String) (params : Option String) : Option PyVal × FabricClient :=
  match fc.primary_apic with
  | Option.none => (Option.none, fc)
  | some c => (c.get_data net endpoint params, fc)

end AciClient

/-! ### Lemmas about the connection manager -/

instance : IsTotal AciClient.DeviceInfo
    (fun a b => AciClient.priorityOr1 a ≤ AciClient.priorityOr1 b) :=
  ⟨fun a b => le_total (AciClient.priorityOr1 a) (AciClient.priorityOr1 b)⟩

instance : IsTrans AciClient.DeviceInfo
    (fun a b => AciClient.priorityOr1 a ≤ AciClient.priorityOr1 b) :=
  ⟨fun _ _ _ hab hbc => le_trans hab hbc⟩

/-- A priority-1 controller that is unreachable in the failover scenario. -/
def apic1 : AciClient.DeviceInfo :=
  { name := "apic1", hostname := "10.0.0.11", device_type := "apic", priority := some 1 }

/-- A priority-2 controller that authenticates in the failover scenario. -/
def apic2 : AciClient.DeviceInfo :=
  { name := "apic2", hostname := "10.0.0.12", device_type := "apic", priority := some 2 }

/-- Authentication outcome in the failover scenario: only the priority-2
controller is reachable. -/
def failoverAuth (d : AciClient.DeviceInfo) : Bool :=
  d.hostname = "10.0.0.12"

/-- Concrete rollup input: two completed collections carrying two and one
error respectively, three errors in total. -/
def rollupDemo : List (String × Option (CollectionResult Unit)) :=
  [("fabric", some (BaseCollector.end_collection "FabricCollector" 0 1 ["e1", "e2"] ())),
   ("leaf", some (BaseCollector.end_collection "LeafCollector" 1 2 ["e3"] ()))]

/-! ## Fabric collector (collectors/fabric_collector.py)

The structured-source collector: it iterates a fixed table of named API
endpoints, records one entry per metric whatever the fetch outcome, and
accumulates one error string per failing metric, then runs the fabric
validation rules.  Tagged attribute records inside `imdata` are opaque to
the collector and modelled as strings. -/

namespace FabricCollector

/-- One entry of the static `FABRIC_ENDPOINTS` table. -/
structure EndpointConfig where
  endpoint : String
  params : Option String := Option.none
  description : String
deriving Repr, DecidableEq

/-- Outcome of `fabric_client.get_fabric_data` for one metric, as the
collect loop distinguishes it: a truthy response containing `imdata`, a
null / imdata-less response, or a raised exception. -/
inductive FetchOutcome where
  | ok (imdata : List String)
  | noData
  | exc (msg : String)
deriving Repr, DecidableEq

/-- The per-metric record stored into `fabric_data[data_type]`. -/
structure FabricEntry where
  endpoint : String
  description : String
  count : Nat
  records : List String
  error : Option String := Option.none
deriving Repr, DecidableEq

/-- The error string `add_error` receives for a failing metric, none for
a successful one (mirrors the two error branches of the loop body). -/
def metricErrorMsg (data_type : String) : FetchOutcome → Option String
  | .ok _ => Option.none
  | .noData => some ("No data returned for " ++ data_type)
  | .exc msg => some ("Failed to collect " ++ data_type ++ ": " ++ msg)

/-- The entry stored for one metric: counts and records on success, an
empty zero-count entry when no data came back, and an entry carrying the
exception text when the fetch raised. -/
def metricEntry (config : EndpointConfig) : FetchOutcome → FabricEntry
  | .ok imdata =>
      { endpoint := config.endpoint, description := config.description
        count := imdata.length, records := imdata, error := Option.none }
  | .noData =>
      { endpoint := config.endpoint, description := config.description
        count := 0, records := [], error := Option.none }
  | .exc msg =>
      { endpoint := config.endpoint, description := config.description
        count := 0, records := [], error := some msg }

/-- Generic association-list lookup for the collected entry map. -/
def elookup (key : String) : List (String × FabricEntry) → Option FabricEntry
  | [] => Option.none
  | (k, v) :: rest => if k = key then some v else elookup key rest

/-- The metric iteration of `FabricCollector.collect`: one entry and at
most one error per table row, in table order; a failing fetch never
stops the iteration. -/
def collectLoop (fetch : String → FetchOutcome) :
    List (String × EndpointConfig) → List (String × FabricEntry) × List String
  | [] => ([], [])
  | (data_type, config) :: rest =>
      let later := collectLoop fetch rest
      ((data_type, metricEntry config (fetch data_type)) :: later.1,
        ((metricErrorMsg data_type (fetch data_type)).toList) ++ later.2)

/-- The error text of the topology validation rule. -/
def topologyMissingMsg : String :=
  "Critical: No topology data - fabric discovery may be incomplete"

/-- One step of the critical-collections check in `validate_fabric_data`.
When the name is absent and equals "faults", the guard of the inner
`elif` indexes `data['faults']` and raises a KeyError, modelled as none. -/
def validateCritical (data : List (String × FabricEntry)) (collection : String) :
    Option (List String) :=
  match elookup collection data with
  | some e =>
      if e.count = 0 then
        if collection = "topology" then some [topologyMissingMsg] else some []
      else some []
  | Option.none =>
      if collection = "topology" then some [topologyMissingMsg]
      else if collection = "faults" then Option.none
      else some []

/-- Model of `validate_fabric_data`: the critical-collections loop over
topology, links and faults, followed by the fabric-size check on the
topology node count. -/
def validate_fabric_data (data : List (String × FabricEntry)) : Option (List String) := do
  let e1 ← validateCritical data "topology"
  let e2 ← validateCritical data "links"
  let e3 ← validateCritical data "faults"
  let sizeWarn :=
    match elookup "topology" data with
    | some e =>
        if e.count < 3 then
          ["Warning: Only " ++ toString e.count ++ " nodes found - fabric may be incomplete"]
        else []
    | Option.none => []
  some (e1 ++ e2 ++ e3 ++ sizeWarn)

/-- Model of `FabricCollector.collect`: runs the metric loop over the
endpoint table, then the validation rules (none models a propagated
exception), and brackets the result with the timing metadata of
`start_collection` / `end_collection`. -/
def collect (fetch : String → FetchOutcome) (table : List (String × EndpointConfig))
    (collection_time end_time : ℚ) :
    Option (CollectionResult (List (String × FabricEntry))) :=
  let looped := collectLoop fetch table
  (validate_fabric_data looped.1).map fun verrs =>
    BaseCollector.end_collection "FabricCollector" collection_time end_time
      (looped.2 ++ verrs) looped.1

/-- The static `FABRIC_ENDPOINTS` table of fabric_collector.py. -/
def FABRIC_ENDPOINTS : List (String × EndpointConfig) :=
  [("topology",
    { endpoint := "/api/class/fabricNode.json"
      description := "Fabric nodes and their status" }),
   ("links",
    { endpoint := "/api/class/fabricLink.json"
      description := "Fabric links between nodes" }),
   ("faults",
    { endpoint := "/api/class/faultInst.json"
      params := some "eq(faultInst.severity,\"major\",\"critical\")"
      description := "Major and critical faults" }),
   ("health",
    { endpoint := "/api/class/healthInst.json"
      description := "Health scores for fabric objects" }),
   ("discovery",
    { endpoint := "/api/class/dhcpClient.json"
      description := "Fabric discovery and node registration" }),
   ("isis",
    { endpoint := "/api/class/isisInternalRoute.json"
      description := "IS-IS internal routes" }),
   ("ospf",
    { endpoint := "/api/class/ospfInternalRoute.json"
      description := "OSPF internal routes" }),
   ("bgp",
    { endpoint := "/api/class/bgpInternalRoute.json"
      description := "BGP internal routes" })]

end FabricCollector

/-- A 5-entry metric table drawn from `FABRIC_ENDPOINTS`: topology,
links, faults, health and isis. -/
def table5 : List (String × FabricCollector.EndpointConfig) :=
  FabricCollector.FABRIC_ENDPOINTS.take 4
    ++ (FabricCollector.FABRIC_ENDPOINTS.drop 5).take 1

/-- A fetch where exactly the isis metric always fails (no data) and the
other four return records; topology returns three nodes so the fabric
size rule is silent. -/
def fetch5 (data_type : String) : FabricCollector.FetchOutcome :=
  if data_type = "topology" then .ok ["node1", "node2", "node3"]
  else if data_type = "links" then .ok ["link1", "link2"]
  else if data_type = "faults" then .ok ["fault1"]
  else if data_type = "health" then .ok ["health1"]
  else .noData

/-- The collection result of the concrete 5-entry run, spelled via the
loop output. -/
def result5 : CollectionResult (List (String × FabricCollector.FabricEntry)) :=
  BaseCollector.end_collection "FabricCollector" 0 2
    ["No data returned for isis"] (FabricCollector.collectLoop fetch5 table5).1

/-! ## Diff engine (snapshot_manager.py, compare_collections / extract_count)

A loaded collection is its error list plus the `data` dict mapping metric
names to payloads.  `compare_collections` appends the error-count line,
then one optional line per baseline key, then the new-data lines; the
whole comparison is Option-valued because the count arithmetic raises a
TypeError on non-numeric count values. -/

namespace SnapshotManager

/-- A collection dataset as `compare_collections` reads it: the error
list and the per-metric data dict. -/
structure CollectionData where
  errors : List String
  data : List (String × PyVal)
deriving Repr

/-- The scan inside `extract_count`: the first processed_data field whose
lowercased name contains "total" and whose value is an int. -/
def firstTotalInt : List (String × PyVal) → Option PyVal
  | [] => Option.none
  | (k, v) :: rest =>
      if pyContains "total" (pyLower k) && pyIsInt v then some v
      else firstTotalInt rest

/-- Model of `SnapshotManager.extract_count`: a top-level `count` field
wins outright; otherwise the total-field scan runs over a dict-valued
`processed_data`; anything else yields None. -/
def extract_count : PyVal → Option PyVal
  | .dict kvs =>
      (match alookup "count" kvs with
        | some v => some v
        | Option.none =>
            match alookup "processed_data" kvs with
            | some (.dict processed) => firstTotalInt processed
            | _ => Option.none)
  | _ => Option.none

/-- Python `abs(current - baseline)` on the extracted count values: ints
and bools support the arithmetic, anything else raises a TypeError
(modelled as none). -/
def countDelta (current baseline : PyVal) : Option Nat :=
  match pyNumVal current, pyNumVal baseline with
  | some a, some b => some (a - b).natAbs
  | _, _ => Option.none

/-- The error-count comparison at the top of `compare_collections`. -/
def errorCountLines (baseline current : CollectionData) : List String :=
  if current.errors.length > baseline.errors.length then
    ["⚠ Errors increased: " ++ toString baseline.errors.length
      ++ " → " ++ toString current.errors.length]
  else if current.errors.length < baseline.errors.length then
    ["✓ Errors decreased: " ++ toString baseline.errors.length
      ++ " → " ++ toString current.errors.length]
  else []

/-- The body of the baseline-keys loop of `compare_collections` for one
key: a missing-data line when the key is absent from the current data,
otherwise an optional count-delta line (none models the TypeError from
comparing non-numeric counts; the inner none branch of the baseline
lookup cannot arise, the key being drawn from the baseline dict). -/
def compareKeyStep (bdata cdata : List (String × PyVal)) (key : String) :
    Option (List String) :=
  match alookup key cdata with
  | Option.none => some ["⚠ Missing data: " ++ key]
  | some cval =>
      match alookup key bdata with
      | Option.none => some []
      | some bval =>
          match extract_count bval, extract_count cval with
          | some bc, some cc =>
              (match countDelta cc bc with
                | Option.none => Option.none
                | some d =>
                    if 0 < d then
                      some ["△ " ++ key ++ " count: " ++ pyStr bc ++ " → " ++ pyStr cc]
                    else some [])
          | _, _ => some []

/-- The baseline-keys loop of `compare_collections`, iterating the keys
of the baseline data dict in order. -/
def compareBaselineKeys (bdata cdata : List (String × PyVal)) :
    List (String × PyVal) → Option (List String)
  | [] => some []
  | (key, _) :: rest =>
      match compareKeyStep bdata cdata key with
      | Option.none => Option.none
      | some here =>
          match compareBaselineKeys bdata cdata rest with
          | Option.none => Option.none
          | some more => some (here ++ more)

/-- The new-data loop of `compare_collections`: one line per current key
absent from the baseline data. -/
def newDataLines (bdata cdata : List (String × PyVal)) : List String :=
  (cdata.filter (fun p => (alookup p.1 bdata).isNone)).map
    (fun p => "✓ New data: " ++ p.1)

/-- Model of `SnapshotManager.compare_collections`: error-count lines,
then the per-baseline-key lines, then the new-data lines. -/
def compare_collections (baseline current : CollectionData) :
    Option (List String) :=
  match compareBaselineKeys baseline.data current.data baseline.data with
  | Option.none => Option.none
  | some keyLines =>
      some (errorCountLines baseline current ++ keyLines
        ++ newDataLines baseline.data current.data)

end SnapshotManager

/-- A collection with a count field and a processed_data totals block,
equal on both sides of the comparison. -/
def selfDemo : SnapshotManager.CollectionData :=
  { errors := ["stale error"]
    data := [("topology", .dict [("count", .int 5)]),
             ("interfaces", .dict [("processed_data",
                .dict [("up_interfaces", .int 40), ("total_interfaces", .int 48)])])] }

/-! ### The count-delta heuristic (C4) -/

mutual

/-- Whether a payload value contains, anywhere, a dict field whose
lowercased name contains "total" (the claim-side notion of the payload
carrying a total field). -/
def hasTotalField : PyVal → Bool
  | .dict kvs => hasTotalEntries kvs
  | .list xs => hasTotalList xs
  | _ => false

/-- Total-field search over list elements. -/
def hasTotalList : List PyVal → Bool
  | [] => false
  | x :: xs => hasTotalField x || hasTotalList xs

/-- Total-field search over dict entries. -/
def hasTotalEntries : List (String × PyVal) → Bool
  | [] => false
  | (k, v) :: rest =>
      pyContains "total" (pyLower k) || hasTotalField v || hasTotalEntries rest

end

/-- Baseline side of the heuristic counterexample: one metric whose
payload carries a top-level count field and no total-named field. -/
def diffBase : SnapshotManager.CollectionData :=
  { errors := [], data := [("topology", .dict [("count", .int 5)])] }

/-- Current side of the heuristic counterexample: same shape, different
count. -/
def diffCur : SnapshotManager.CollectionData :=
  { errors := [], data := [("topology", .dict [("count", .int 9)])] }

/-! ## Snapshot listing (snapshot_manager.py, list_snapshots) -/

namespace SnapshotManager

/-- The per-snapshot metadata record built by `list_snapshots`:
directory name, path, creation timestamp (st_mtime, seconds) and number
of data files. -/
structure SnapshotInfo where
  name : String
  path : String
  created : Int
  files : Nat
deriving Repr, DecidableEq

/-- Model of `SnapshotManager.list_snapshots`: the directories found (in
arbitrary iteration order) sorted by creation time, newest first, with
Python's stable reverse sort reproduced by a stable insertion sort on
the flipped key relation. -/
def list_snapshots (found : List SnapshotInfo) : List SnapshotInfo :=
  List.insertionSort (fun a b => b.created ≤ a.created) found

/-- Model of `SnapshotManager.find_baseline_snapshot`: the head of the
sorted listing, if any. -/
def find_baseline_snapshot (found : List SnapshotInfo) : Option SnapshotInfo :=
  (list_snapshots found).head?

end SnapshotManager

/-! ### Lemmas about the snapshot listing -/

instance : IsTotal SnapshotManager.SnapshotInfo (fun a b => b.created ≤ a.created) :=
  ⟨fun a b => le_total b.created a.created⟩

instance : IsTrans SnapshotManager.SnapshotInfo (fun a b => b.created ≤ a.created) :=
  ⟨fun _ _ _ hab hbc => le_trans hbc hab⟩

/-- Snapshot "s1", created first. -/
def snap1 : SnapshotManager.SnapshotInfo :=
  { name := "s1", path := "snapshots/s1", created := 100, files := 4 }

/-- Snapshot "s2", created later. -/
def snap2 : SnapshotManager.SnapshotInfo :=
  { name := "s2", path := "snapshots/s2", created := 200, files := 4 }

/-! ## Leaf interface parser (collectors/leaf_collector.py, parse_interface_status) -/

namespace LeafCollector

/-- One parsed row of `show interface status` output. -/
structure InterfaceRecord where
  interface : String
  status : String
  vlan : String
  duplex : String
deriving Repr, DecidableEq

/-- The normalized structure returned by `parse_interface_status`. -/
structure InterfaceStatusResult where
  total_interfaces : Nat
  up_interfaces : Nat
  interfaces : List InterfaceRecord
deriving Repr, DecidableEq

/-- The header-line exclusion of `parse_interface_status`: lines of the
stripped output not starting with "Port" or "----". -/
def dataLines (output : String) : List String :=
  (pySplitNl (pyStrip output)).filter
    (fun l => !(pyStartsWith "Port" l) && !(pyStartsWith "----" l))

/-- The loop guard for one data line: non-blank and at least 4
whitespace-separated fields. -/
def keptLine (line : String) : Bool :=
  (pyStrip line != "") && decide (4 ≤ (pySplitWs line).length)

/-- The record built from one kept line (the length guard makes the
first four fields present; the defaults mirror the code's inline
conditionals). -/
def parseLine (line : String) : InterfaceRecord :=
  let parts := pySplitWs line
  { interface := parts.getD 0 ""
    status := parts.getD 1 "unknown"
    vlan := parts.getD 2 "unknown"
    duplex := parts.getD 3 "unknown" }

/-- Whether a parsed interface counts as up: "connected" occurs in the
lowercased status field. -/
def isConnected (i : InterfaceRecord) : Bool :=
  pyContains "connected" (pyLower i.status)

/-- Model of `LeafCollector.parse_interface_status`. -/
def parse_interface_status (output : String) : InterfaceStatusResult :=
  let interfaces := ((dataLines output).filter keptLine).map parseLine
  { total_interfaces := interfaces.length
    up_interfaces := (interfaces.filter isConnected).length
    interfaces := interfaces }

end LeafCollector

/-- The claim-side count of parsed data lines: lines (of the stripped
output) not starting with "Port" or "----" that split into at least 4
whitespace-separated fields. -/
def claimDataLineCount (output : String) : Nat :=
  ((pySplitNl (pyStrip output)).filter
    (fun l => !(pyStartsWith "Port" l) && !(pyStartsWith "----" l)
      && decide (4 ≤ (pySplitWs l).length))).length

/-! ## Shared device model (shared/device_info.py) -/

namespace Shared

/-- The shared `DeviceInfo` dataclass used by the inventory parser. -/
structure DeviceInfo where
  name : String
  hostname : String
  username : String := ""
  password : String := ""
  device_type : String := "unknown"
  node_id : Option Int := Option.none
  priority : Int := 1
  port : Int := 22
deriving Repr, DecidableEq

/-- The dataclass constructor together with `__post_init__`: empty name
or hostname raises (none), and an apic keeping the default SSH port is
bumped to 443. -/
def mkDeviceInfo (name hostname username password device_type : String)
    (node_id : Option Int) (priority : Int) (port : Int) : Option DeviceInfo :=
  if name = "" ∨ hostname = "" then Option.none
  else some
    { name := name, hostname := hostname, username := username, password := password
      device_type := device_type, node_id := node_id, priority := priority
      port := if device_type = "apic" ∧ port = 22 then 443 else port }

end Shared

/-! ## Inventory reading (shared/utils.py, read_inventory_file) -/

namespace SharedUtils

/-- One host entry as `read_inventory_file` records it: first token,
enclosing section name (None before any header) and the full stripped line. -/
structure HostLine where
  name : String
  sectionName : Option String
  line : String
deriving Repr, DecidableEq

/-- The accumulated state of the `read_inventory_file` loop. -/
structure ReadState where
  sections : List String
  hosts : List HostLine
  generated : Option String
  management_type : Option String
  current_section : Option String
deriving Repr, DecidableEq

/-- Python `line.strip('[]')`. -/
def pyStripBrackets (s : String) : String :=
  ⟨stripBy (fun c => c = '[' || c = ']') s.data⟩

/-- The suffix of a string after the first occurrence of sub, modelling
`s.split(sub)[1]` when sub occurs exactly once (how the metadata comment
lines use it). -/
def afterSub (sub : String) : List Char → String
  | [] => ""
  | c :: cs =>
      if sub.data.isPrefixOf (c :: cs) then ⟨(c :: cs).drop sub.data.length⟩
      else afterSub sub cs

/-- One iteration of the `read_inventory_file` line loop. -/
def readInvStep (st : ReadState) (raw : String) : ReadState :=
  let line := pyStrip raw
  if pyStartsWith "#" line then
    if pyContains "Generated:" line then
      { st with generated := some (pyStrip (afterSub "Generated:" line.data)) }
    else if pyContains "Management Network:" line then
      { st with management_type := some (pyStrip (afterSub "Management Network:" line.data)) }
    else st
  else if pyStartsWith "[" line && pyContains "]" line then
    let sec := pyStripBrackets line
    { st with sections := st.sections ++ [sec], current_section := some sec }
  else if line != "" && !(pyStartsWith "[" line) && pyContains "=" line then
    { st with hosts := st.hosts
        ++ [{ name := (pySplitWs line).getD 0 "", sectionName := st.current_section
              line := line }] }
  else st

/-- Model of `read_inventory_file`: fold the line loop over the file
content, starting with no section. -/
def read_inventory_file (text : String) : ReadState :=
  (pySplitNl text).foldl readInvStep
    { sections := [], hosts := [], generated := Option.none
      management_type := Option.none, current_section := Option.none }

end SharedUtils

/-! ## Inventory parsing (inventory_parser.py) -/

namespace InventoryParser

/-- Python `part.split('=', 1)` on the characters of a token known to
contain '='. -/
def splitOnceEq : List Char → List Char × List Char
  | [] => ([], [])
  | c :: cs =>
      if c = '=' then ([], cs)
      else
        let r := splitOnceEq cs
        (c :: r.1, r.2)

/-- The params dict built from the tokens after the hostname: later
duplicate keys overwrite earlier ones, so lookup takes the last
binding. -/
def hostParams (host : SharedUtils.HostLine) : List (String × String) :=
  ((pySplitWs host.line).drop 1).filterMap (fun part =>
    if pyContains "=" part then
      some (⟨(splitOnceEq part.data).1⟩, ⟨(splitOnceEq part.data).2⟩)
    else Option.none)

/-- Dict lookup with Python overwrite semantics: the last binding of the
key wins. -/
def lastLookup (key : String) : List (String × String) → Option String
  | [] => Option.none
  | (k, v) :: rest =>
      match lastLookup key rest with
      | some w => some w
      | Option.none => if k = key then some v else Option.none

/-- Value of a non-empty all-digit character list, none otherwise. -/
def digitsVal (cs : List Char) : Option Nat :=
  cs.foldl
    (fun acc c =>
      match acc with
      | Option.none => Option.none
      | some n => if c.isDigit then some (n * 10 + (c.toNat - 48)) else Option.none)
    (if cs.isEmpty then Option.none else some 0)

/-- Python `int(s)` as the parser uses it: optional sign around a digit
string after stripping whitespace; none models a ValueError. -/
def pyInt (s : String) : Option Int :=
  match (pyStrip s).data with
  | '+' :: rest => (digitsVal rest).map Int.ofNat
  | '-' :: rest => (digitsVal rest).map (fun n => -(n : Int))
  | cs => (digitsVal cs).map Int.ofNat

/-- The role inferred from a section name, by the substring chain used
both in parse_ini_host and in parse_ini_file. -/
def deviceTypeOfSection (sectionName : String) : String :=
  let s := pyLower sectionName
  if pyContains "apic" s then "apic"
  else if pyContains "leaf" s || pyContains "leaves" s then "leaf"
  else if pyContains "spine" s then "spine"
  else "other"

/-- Model of `InventoryParser.parse_ini_host`: none models the caught
exceptions (no tokens on the line, or a missing section making
`section.lower()` raise); node_id stays None and priority stays 1 when
the respective key is absent or fails to parse as an int. -/
def parse_ini_host (host : SharedUtils.HostLine) : Option Shared.DeviceInfo :=
  match pySplitWs host.line, host.sectionName with
  | [], _ => Option.none
  | _ :: _, Option.none => Option.none
  | hostname :: _, some sec =>
      let params := hostParams host
      let node_id :=
        match lastLookup "node_id" params with
        | some v => pyInt v
        | Option.none => Option.none
      let priority :=
        match lastLookup "priority" params with
        | some v => (pyInt v).getD 1
        | Option.none => 1
      Shared.mkDeviceInfo hostname hostname "" "" (deviceTypeOfSection sec)
        node_id priority 22

/-- The role-partitioned inventory built by `parse_ini_file`. -/
structure FabricInventory where
  apic_devices : List Shared.DeviceInfo
  leaf_devices : List Shared.DeviceInfo
  spine_devices : List Shared.DeviceInfo
  other_devices : List Shared.DeviceInfo
  fabric_name : String
  discovery_timestamp : String
  total_devices : Nat
deriving Repr, DecidableEq

/-- The host-classification loop of `parse_ini_file`: a parsed device is
appended to the bucket matching its section's substring chain; hosts
that fail to parse are skipped. -/
def classifyHost (acc : FabricInventory) (host : SharedUtils.HostLine) : FabricInventory :=
  match parse_ini_host host with
  | Option.none => acc
  | some d =>
      match host.sectionName with
      | Option.none => acc
      | some sec0 =>
          let sec := pyLower sec0
          if pyContains "apic" sec then
            { acc with apic_devices := acc.apic_devices ++ [d] }
          else if pyContains "leaf" sec || pyContains "leaves" sec then
            { acc with leaf_devices := acc.leaf_devices ++ [d] }
          else if pyContains "spine" sec then
            { acc with spine_devices := acc.spine_devices ++ [d] }
          else
            { acc with other_devices := acc.other_devices ++ [d] }

/-- Model of `InventoryParser.parse_ini_file` over the file content. -/
def parse_ini_file (text : String) : FabricInventory :=
  let inv := SharedUtils.read_inventory_file text
  let filled := inv.hosts.foldl classifyHost
    { apic_devices := [], leaf_devices := [], spine_devices := [], other_devices := []
      fabric_name := "ACI Fabric"
      discovery_timestamp := inv.generated.getD "unknown"
      total_devices := 0 }
  { filled with
      total_devices := filled.apic_devices.length + filled.leaf_devices.length
        + filled.spine_devices.length + filled.other_devices.length }

end InventoryParser

/-- The flat-text inventory fixture of the claim. -/
def iniFixture : String :=
  "[leaves_pod_1]\nleaf1 ansible_host=10.0.0.1 node_id=201 priority=1"

/-- The device the fixture must parse to. -/
def leaf1Device : Shared.DeviceInfo :=
  { name := "leaf1", hostname := "leaf1", username := "", password := ""
    device_type := "leaf", node_id := some 201, priority := 1, port := 22 }

/-! ## Theorems -/

/-! ### Lemmas about the rollup -/

theorem totalErrors_allPresent (collections : List (String × Option (CollectionResult α)))
    (h : ∀ p ∈ collections, p.2.isSome) :
    SnapshotManager.totalErrors collections
      = (collections.map (fun p => (p.2.map (fun d => d.errors.length)).getD 0)).sum := by
  induction collections with
  | nil => rfl
  | cons hd tl ih =>
      have hhd := h hd (List.mem_cons_self hd tl)
      have htl := ih (fun p hp => h p (List.mem_cons_of_mem _ hp))
      match hd, hhd with
      | (k, some d), _ =>
          simp only [SnapshotManager.totalErrors, List.map_cons, List.sum_cons, htl]
          rfl

theorem connectLoop_eq_find (auth : AciClient.DeviceInfo → Bool)
    (l : List AciClient.DeviceInfo) :
    AciClient.connectLoop auth l = l.find? auth := by
  induction l with
  | nil => rfl
  | cons d ds ih =>
      by_cases h : auth d
      · simp [AciClient.connectLoop, h, List.find?_cons_of_pos]
      · simp only [AciClient.connectLoop, if_neg h, ih]
        rw [List.find?_cons_of_neg _ (by simpa using h)]

theorem connectLoop_none_iff (auth : AciClient.DeviceInfo → Bool)
    (l : List AciClient.DeviceInfo) :
    AciClient.connectLoop auth l = Option.none ↔ ∀ d ∈ l, auth d = false := by
  induction l with
  | nil => simp [AciClient.connectLoop]
  | cons d ds ih =>
      simp only [AciClient.connectLoop, List.mem_cons]
      by_cases h : auth d
      · rw [if_pos h]
        constructor
        · intro hc; cases hc
        · intro hall
          have hd := hall d (Or.inl rfl)
          rw [h] at hd; cases hd
      · rw [if_neg h, ih]
        constructor
        · intro hall x hx
          rcases hx with rfl | hx
          · simpa using h
          · exact hall x hx
        · intro hall x hx
          exact hall x (Or.inr hx)

/-- C3: `connect` attempts authentication against each controller in
ascending priority order, returns the first controller that
authenticates as the primary session, and fails only if every attempt
fails; with priorities [1,2] and priority-1 unreachable it attempts
priority-1 first and the primary session is priority-2's. -/
theorem connect_failover_order (auth : AciClient.DeviceInfo → Bool)
    (apic_devices : List AciClient.DeviceInfo) :
    (AciClient.sortedApics apic_devices).Pairwise
        (fun a b => AciClient.priorityOr1 a ≤ AciClient.priorityOr1 b)
    ∧ (AciClient.sortedApics apic_devices).Perm apic_devices
    ∧ AciClient.connect_to_fabric auth apic_devices
        = (AciClient.sortedApics apic_devices).find? auth
    ∧ (AciClient.connect_to_fabric auth apic_devices = Option.none
        ↔ ∀ d ∈ apic_devices, auth d = false)
    ∧ AciClient.connectAttempts failoverAuth (AciClient.sortedApics [apic1, apic2])
        = [apic1, apic2]
    ∧ AciClient.connect_to_fabric failoverAuth [apic1, apic2] = some apic2 := by
  refine ⟨List.sorted_insertionSort _ _, List.perm_insertionSort _ _,
    connectLoop_eq_find auth _, ?_, by decide, by decide⟩
  rw [AciClient.connect_to_fabric, connectLoop_none_iff]
  constructor
  · intro hall d hd
    exact hall d (((List.perm_insertionSort _ apic_devices).mem_iff).mpr hd)
  · intro hall d hd
    exact hall d (((List.perm_insertionSort _ apic_devices).mem_iff).mp hd)

/-- C9: `get_fabric_data` returns null whenever there is no authenticated
primary session or the underlying call errors, records no bookkeeping of
its own (the client state is returned unchanged), and returns the parsed
JSON response when the primary session is authenticated and the call
succeeds. -/
theorem get_fabric_data_null_cases (fc : AciClient.FabricClient)
    (net : String → Option String → Option PyVal)
    (endpoint : String) (params : Option String) :
    ((fc.get_fabric_data net endpoint params).2 = fc)
    ∧ ((fc.get_fabric_data net endpoint params).1 = Option.none
        ↔ fc.primary_apic = Option.none
          ∨ (∃ c, fc.primary_apic = some c ∧ c.is_authenticated = false)
          ∨ net endpoint params = Option.none)
    ∧ (∀ c j, fc.primary_apic = some c → c.is_authenticated = true →
        net endpoint params = some j →
        (fc.get_fabric_data net endpoint params).1 = some j) := by
  obtain ⟨pa⟩ := fc
  match pa with
  | Option.none =>
      refine ⟨rfl, ?_, ?_⟩
      · simp [AciClient.FabricClient.get_fabric_data]
      · intro c j hc
        cases hc
  | some c =>
      refine ⟨rfl, ?_, ?_⟩
      · by_cases hauth : c.is_authenticated
        · simp [AciClient.FabricClient.get_fabric_data, AciClient.APICClient.get_data, hauth]
        · simp only [AciClient.FabricClient.get_fabric_data,
            AciClient.APICClient.get_data, if_neg hauth]
          constructor
          · intro _
            exact Or.inr (Or.inl ⟨c, rfl, by simpa using hauth⟩)
          · intro _
            trivial
      · intro c2 j hc hauth hnet
        injection hc with hc
        subst hc
        simp [AciClient.FabricClient.get_fabric_data, AciClient.APICClient.get_data,
          hauth, hnet]

/-- Witness for the success branch of `get_fabric_data`: a concrete
authenticated primary session and a concrete network response. -/
theorem get_fabric_data_null_cases_witness :
    ((AciClient.FabricClient.mk
        (some { hostname := "10.0.0.11", is_authenticated := true })).get_fabric_data
        (fun _ _ => some (PyVal.dict [("imdata", PyVal.list [])])) "/api/class/fabricNode.json"
        Option.none).1
      = some (PyVal.dict [("imdata", PyVal.list [])]) :=
  (get_fabric_data_null_cases
      (AciClient.FabricClient.mk
        (some { hostname := "10.0.0.11", is_authenticated := true }))
      (fun _ _ => some (PyVal.dict [("imdata", PyVal.list [])]))
      "/api/class/fabricNode.json" Option.none).2.2
    { hostname := "10.0.0.11", is_authenticated := true }
    (PyVal.dict [("imdata", PyVal.list [])]) rfl rfl rfl

/-- C2: the snapshot finalize step computes the total error count across
all saved CollectionResults and classifies the rollup exactly by that
count: 0 errors is healthy, 1 to 3 errors is warning, 4 or more is
critical, for every map of collection results. -/
theorem rollup_classification (collections : List (String × Option (CollectionResult α)))
    (h : ∀ p ∈ collections, p.2.isSome) :
    SnapshotManager.totalErrors collections
        = (collections.map (fun p => (p.2.map (fun d => d.errors.length)).getD 0)).sum
    ∧ (SnapshotManager.overallStatus collections = "HEALTHY"
        ↔ SnapshotManager.totalErrors collections = 0)
    ∧ (SnapshotManager.overallStatus collections = "WARNING"
        ↔ 1 ≤ SnapshotManager.totalErrors collections
          ∧ SnapshotManager.totalErrors collections ≤ 3)
    ∧ (SnapshotManager.overallStatus collections = "CRITICAL"
        ↔ 4 ≤ SnapshotManager.totalErrors collections) := by
  refine ⟨totalErrors_allPresent collections h, ?_, ?_, ?_⟩ <;>
  · unfold SnapshotManager.overallStatus
    split_ifs with h0 h3 <;> constructor <;> intro hh <;>
      first
        | rfl
        | omega
        | exact absurd hh (by decide)

/-- Witness for the rollup classification at the warning boundary: three
total errors classify as warning. -/
theorem rollup_classification_witness :
    SnapshotManager.overallStatus rollupDemo = "WARNING"
    ∧ SnapshotManager.totalErrors rollupDemo = 3 :=
  ⟨(rollup_classification rollupDemo (by decide)).2.2.1.mpr (by decide),
   by decide⟩

/-! ### Lemmas about the fabric collect loop -/

theorem collectLoop_entries (fetch : String → FabricCollector.FetchOutcome)
    (table : List (String × FabricCollector.EndpointConfig)) :
    (FabricCollector.collectLoop fetch table).1
      = table.map (fun p => (p.1, FabricCollector.metricEntry p.2 (fetch p.1))) := by
  induction table with
  | nil => rfl
  | cons hd tl ih =>
      simp only [FabricCollector.collectLoop, List.map_cons, ih]

theorem collectLoop_errors (fetch : String → FabricCollector.FetchOutcome)
    (table : List (String × FabricCollector.EndpointConfig)) :
    (FabricCollector.collectLoop fetch table).2
      = table.filterMap (fun p => FabricCollector.metricErrorMsg p.1 (fetch p.1)) := by
  induction table with
  | nil => rfl
  | cons hd tl ih =>
      simp only [FabricCollector.collectLoop, List.filterMap_cons, ih]
      match hmsg : FabricCollector.metricErrorMsg hd.1 (fetch hd.1) with
      | Option.none => simp [Option.toList]
      | some msg => simp [Option.toList]

/-- C1: for every metric table, a fetch that returns no data or raises
for one metric is recorded as an error in the result's error list and
does not stop collection of the remaining metrics: every table row gets
its entry, in order, whatever its fetch outcome; for the 5-entry table
where exactly isis fails, collect returns 4 successful metric entries,
exactly 1 error message naming the failing metric, and no missing data
for the other 4. -/
theorem collect_partial_failure (fetch : String → FabricCollector.FetchOutcome)
    (table : List (String × FabricCollector.EndpointConfig)) (t0 t1 : ℚ) :
    ((FabricCollector.collectLoop fetch table).1
        = table.map (fun p => (p.1, FabricCollector.metricEntry p.2 (fetch p.1))))
    ∧ (∀ p ∈ table, ∀ msg, FabricCollector.metricErrorMsg p.1 (fetch p.1) = some msg →
        msg ∈ (FabricCollector.collectLoop fetch table).2)
    ∧ (∀ r, FabricCollector.collect fetch table t0 t1 = some r →
        ∃ verrs,
          FabricCollector.validate_fabric_data (FabricCollector.collectLoop fetch table).1
              = some verrs
          ∧ r.errors = (FabricCollector.collectLoop fetch table).2 ++ verrs
          ∧ r.data = (FabricCollector.collectLoop fetch table).1)
    ∧ ((FabricCollector.collect fetch5 table5 0 2).map (fun r => r.errors)
        = some ["No data returned for isis"])
    ∧ ((FabricCollector.collectLoop fetch5 table5).1.map Prod.fst
        = ["topology", "links", "faults", "health", "isis"])
    ∧ (((FabricCollector.collectLoop fetch5 table5).1.filter
        (fun p => p.2.error.isNone && decide (0 < p.2.count))).length = 4) := by
  refine ⟨collectLoop_entries fetch table, ?_, ?_, by decide, by decide, by decide⟩
  · intro p hp msg hmsg
    rw [collectLoop_errors]
    exact List.mem_filterMap.mpr ⟨p, hp, hmsg⟩
  · intro r hr
    simp only [FabricCollector.collect] at hr
    match hval : FabricCollector.validate_fabric_data
        (FabricCollector.collectLoop fetch table).1 with
    | Option.none =>
        rw [hval] at hr
        cases hr
    | some verrs =>
        rw [hval] at hr
        simp only [Option.map_some'] at hr
        cases hr
        exact ⟨verrs, rfl, rfl, rfl⟩

/-- Witness exercising the error-recording clause at the concrete table:
the isis row is in the table and its failure message is in the loop's
error list. -/
theorem collect_partial_failure_witness :
    ("isis",
      ({ endpoint := "/api/class/isisInternalRoute.json"
         description := "IS-IS internal routes" } : FabricCollector.EndpointConfig)) ∈ table5
    ∧ "No data returned for isis" ∈ (FabricCollector.collectLoop fetch5 table5).2 := by
  have h := collect_partial_failure fetch5 table5 0 2
  exact ⟨by decide,
    h.2.1
      ("isis",
        { endpoint := "/api/class/isisInternalRoute.json"
          description := "IS-IS internal routes" })
      (by decide) "No data returned for isis" (by decide)⟩

/-- C8: for every CollectionResult produced by the collect operation, the
reported duration_seconds equals end_time minus start_time, and the
stamped interval is the bracketing start/end pair. -/
theorem duration_eq_interval (fetch : String → FabricCollector.FetchOutcome)
    (table : List (String × FabricCollector.EndpointConfig)) (t0 t1 : ℚ)
    (r : CollectionResult (List (String × FabricCollector.FabricEntry)))
    (hr : FabricCollector.collect fetch table t0 t1 = some r) :
    r.duration_seconds = r.end_time - r.start_time
    ∧ r.start_time = t0 ∧ r.end_time = t1 := by
  simp only [FabricCollector.collect] at hr
  match hval : FabricCollector.validate_fabric_data
      (FabricCollector.collectLoop fetch table).1 with
  | Option.none =>
      rw [hval] at hr
      cases hr
  | some verrs =>
      rw [hval] at hr
      simp only [Option.map_some'] at hr
      cases hr
      exact ⟨rfl, rfl, rfl⟩

/-- Witness for the duration law at the concrete 5-entry run. -/
theorem duration_eq_interval_witness :
    result5.duration_seconds = result5.end_time - result5.start_time
    ∧ result5.start_time = 0 ∧ result5.end_time = 2 :=
  duration_eq_interval fetch5 table5 0 2 result5 (by rfl)

/-! ### Lemmas about the diff engine -/

theorem alookup_isSome_of_mem (d : List (String × PyVal)) (p : String × PyVal)
    (hp : p ∈ d) : (alookup p.1 d).isSome := by
  induction d with
  | nil => cases hp
  | cons hd tl ih =>
      obtain ⟨k, v⟩ := hd
      cases hp with
      | head => simp [alookup]
      | tail _ hp =>
          by_cases hk : k = p.1
          · simp [alookup, hk]
          · simp only [alookup, if_neg hk]
            exact ih hp

theorem alookup_mem (d : List (String × PyVal)) (k : String) (v : PyVal)
    (h : alookup k d = some v) : (k, v) ∈ d := by
  induction d with
  | nil => cases h
  | cons hd tl ih =>
      obtain ⟨k0, v0⟩ := hd
      by_cases hk : k0 = k
      · rw [alookup, if_pos hk] at h
        injection h with h
        subst hk; subst h
        exact List.mem_cons_self _ _
      · rw [alookup, if_neg hk] at h
        exact List.mem_cons_of_mem _ (ih h)

theorem compareKeyStep_present (bdata cdata : List (String × PyVal)) (key : String)
    (bval cval : PyVal)
    (hb : alookup key bdata = some bval) (hc : alookup key cdata = some cval) :
    SnapshotManager.compareKeyStep bdata cdata key
      = match SnapshotManager.extract_count bval, SnapshotManager.extract_count cval with
        | some bc, some cc =>
            (match SnapshotManager.countDelta cc bc with
              | Option.none => Option.none
              | some d =>
                  if 0 < d then
                    some ["△ " ++ key ++ " count: " ++ pyStr bc ++ " → " ++ pyStr cc]
                  else some [])
        | _, _ => some [] := by
  unfold SnapshotManager.compareKeyStep
  rw [hc, hb]

theorem compareKeyStep_self (d : List (String × PyVal)) (key : String)
    (h : (alookup key d).isSome) :
    SnapshotManager.compareKeyStep d d key = Option.none
    ∨ SnapshotManager.compareKeyStep d d key = some [] := by
  obtain ⟨v, hv⟩ := Option.isSome_iff_exists.mp h
  rw [compareKeyStep_present d d key v v hv hv]
  cases hx : SnapshotManager.extract_count v with
  | none => right; rfl
  | some bc =>
      cases hnum : pyNumVal bc with
      | none =>
          left
          simp [SnapshotManager.countDelta, hnum]
      | some a =>
          right
          simp [SnapshotManager.countDelta, hnum]

theorem compareKeyStep_self_numeric (d : List (String × PyVal)) (key : String) (v : PyVal)
    (hv : alookup key d = some v)
    (hnum : ∀ w, SnapshotManager.extract_count v = some w → pyIsInt w = true) :
    SnapshotManager.compareKeyStep d d key = some [] := by
  rw [compareKeyStep_present d d key v v hv hv]
  cases hw : SnapshotManager.extract_count v with
  | none => rfl
  | some w =>
      have hint := hnum w hw
      match w, hint with
      | .int n, _ => simp [SnapshotManager.countDelta, pyNumVal]
      | .bool b, _ => simp [SnapshotManager.countDelta, pyNumVal]

theorem compareBaselineKeys_self (d : List (String × PyVal))
    (entries : List (String × PyVal))
    (hmem : ∀ p ∈ entries, (alookup p.1 d).isSome) :
    SnapshotManager.compareBaselineKeys d d entries = Option.none
    ∨ SnapshotManager.compareBaselineKeys d d entries = some [] := by
  induction entries with
  | nil => right; rfl
  | cons hd tl ih =>
      have hstep := compareKeyStep_self d hd.1 (hmem hd (List.mem_cons_self hd tl))
      have htl := ih (fun p hp => hmem p (List.mem_cons_of_mem _ hp))
      obtain ⟨key, v0⟩ := hd
      rcases hstep with hstep | hstep <;>
        rcases htl with htl | htl <;>
        simp [SnapshotManager.compareBaselineKeys, hstep, htl, Option.bind]

theorem compareBaselineKeys_self_numeric (d : List (String × PyVal))
    (entries : List (String × PyVal))
    (hmem : ∀ p ∈ entries, (alookup p.1 d).isSome)
    (hnum : ∀ p ∈ d, ∀ w, SnapshotManager.extract_count p.2 = some w → pyIsInt w = true) :
    SnapshotManager.compareBaselineKeys d d entries = some [] := by
  induction entries with
  | nil => rfl
  | cons hd tl ih =>
      obtain ⟨v, hv⟩ := Option.isSome_iff_exists.mp (hmem hd (List.mem_cons_self hd tl))
      have hstep := compareKeyStep_self_numeric d hd.1 v hv
        (hnum (hd.1, v) (alookup_mem d hd.1 v hv))
      have htl := ih (fun p hp => hmem p (List.mem_cons_of_mem _ hp))
      obtain ⟨key, v0⟩ := hd
      simp [SnapshotManager.compareBaselineKeys, hstep, htl, Option.bind]

theorem newDataLines_self (d : List (String × PyVal)) :
    SnapshotManager.newDataLines d d = [] := by
  unfold SnapshotManager.newDataLines
  rw [List.filter_eq_nil_iff.mpr, List.map_nil]
  intro p hp
  have hs := alookup_isSome_of_mem d p hp
  simp only [Option.isNone_iff_eq_none]
  intro hcontra
  rw [hcontra] at hs
  cases hs

/-- C5: comparing a snapshot against itself yields an empty change list
for every collection key: no error-count change, no count delta, no
missing data and no new data; whenever the comparison completes, the
change list is empty, and it does complete (with the empty list) when
every extractable count is numeric. -/
theorem compare_self_empty (c : SnapshotManager.CollectionData) :
    (∀ l, SnapshotManager.compare_collections c c = some l → l = [])
    ∧ ((∀ p ∈ c.data, (SnapshotManager.extract_count p.2).all pyIsInt = true) →
        SnapshotManager.compare_collections c c = some []) := by
  have hmem : ∀ p ∈ c.data, (alookup p.1 c.data).isSome :=
    fun p hp => alookup_isSome_of_mem c.data p hp
  have herr : SnapshotManager.errorCountLines c c = [] := by
    unfold SnapshotManager.errorCountLines
    simp
  constructor
  · intro l hl
    unfold SnapshotManager.compare_collections at hl
    rcases compareBaselineKeys_self c.data c.data hmem with hk | hk
    · rw [hk] at hl
      cases hl
    · rw [hk] at hl
      simp only [Option.some_bind, herr, newDataLines_self, List.append_nil,
        List.nil_append, Option.some.injEq] at hl
      exact hl.symm
  · intro hall
    have hnum : ∀ p ∈ c.data, ∀ w,
        SnapshotManager.extract_count p.2 = some w → pyIsInt w = true := by
      intro p hp w hw
      have h := hall p hp
      rw [hw] at h
      simpa [Option.all] using h
    unfold SnapshotManager.compare_collections
    rw [compareBaselineKeys_self_numeric c.data c.data hmem hnum]
    simp only [Option.some_bind, herr, newDataLines_self, List.append_nil, List.nil_append]

/-- Witness: the self-comparison of the concrete collection completes
with the empty change list. -/
theorem compare_self_empty_witness :
    SnapshotManager.compare_collections selfDemo selfDemo = some [] :=
  (compare_self_empty selfDemo).2 (by intro p hp; fin_cases hp <;> rfl)

/-- Counterexample to C4 as stated: neither payload carries any field
whose name contains "total", yet the comparison reports a count delta
for the key instead of no significant change (the code prefers the
top-level count field, which the claim's description omits). -/
theorem total_heuristic_counterexample :
    SnapshotManager.compare_collections diffBase diffCur
        = some ["△ topology count: 5 → 9"]
    ∧ diffBase.data.all (fun p => !hasTotalField p.2) = true
    ∧ diffCur.data.all (fun p => !hasTotalField p.2) = true :=
  ⟨rfl, rfl, rfl⟩

theorem firstTotalInt_eq_some_iff (p : List (String × PyVal)) (v : PyVal) :
    SnapshotManager.firstTotalInt p = some v ↔
      ∃ p1 k p2, p = p1 ++ (k, v) :: p2
        ∧ pyContains "total" (pyLower k) = true ∧ pyIsInt v = true
        ∧ ∀ q ∈ p1, ¬(pyContains "total" (pyLower q.1) = true ∧ pyIsInt q.2 = true) := by
  induction p with
  | nil =>
      constructor
      · intro h; cases h
      · rintro ⟨p1, k, p2, hp, -⟩
        cases p1 <;> cases hp
  | cons hd tl ih =>
      obtain ⟨k0, v0⟩ := hd
      by_cases hc : (pyContains "total" (pyLower k0) && pyIsInt v0) = true
      · rw [show SnapshotManager.firstTotalInt ((k0, v0) :: tl) = some v0 from by
          simp only [SnapshotManager.firstTotalInt, if_pos hc]]
        obtain ⟨hck, hcv⟩ : pyContains "total" (pyLower k0) = true ∧ pyIsInt v0 = true := by
          simpa using hc
        constructor
        · intro h
          injection h with h
          subst h
          exact ⟨[], k0, tl, rfl, hck, hcv, by intro q hq; cases hq⟩
        · rintro ⟨p1, k, p2, hp, hk, hv, hfirst⟩
          cases p1 with
          | nil =>
              simp only [List.nil_append, List.cons.injEq, Prod.mk.injEq] at hp
              rw [hp.1.2]
          | cons q p1x =>
              simp only [List.cons_append, List.cons.injEq] at hp
              have hq := hfirst q (List.mem_cons_self q p1x)
              rw [← hp.1] at hq
              exact absurd ⟨hck, hcv⟩ hq
      · rw [show SnapshotManager.firstTotalInt ((k0, v0) :: tl)
            = SnapshotManager.firstTotalInt tl from by
          simp only [SnapshotManager.firstTotalInt, if_neg hc]]
        rw [ih]
        constructor
        · rintro ⟨p1, k, p2, hp, hk, hv, hfirst⟩
          refine ⟨(k0, v0) :: p1, k, p2, by rw [List.cons_append, hp], hk, hv, ?_⟩
          intro q hq
          cases hq with
          | head =>
              rintro ⟨hq1, hq2⟩
              exact hc (by simp [hq1, hq2])
          | tail _ hq => exact hfirst q hq
        · rintro ⟨p1, k, p2, hp, hk, hv, hfirst⟩
          cases p1 with
          | nil =>
              simp only [List.nil_append, List.cons.injEq, Prod.mk.injEq] at hp
              obtain ⟨⟨h1, h2⟩, -⟩ := hp
              rw [h1, h2] at hc
              exact (hc (by simp [hk, hv])).elim
          | cons q p1x =>
              simp only [List.cons_append, List.cons.injEq] at hp
              exact ⟨p1x, k, p2, hp.2, hk, hv,
                fun q2 hq2 => hfirst q2 (List.mem_cons_of_mem q hq2)⟩

/-- C4 (amended): the count delta for a key present in both snapshots
comes from extract_count, which returns the payload's top-level count
field when present, and otherwise scans the processed_data dict for the
first field whose lowercased name contains "total" and holds an integer
(int or bool); when extract_count yields no value for either side, no
count-delta line is reported for that key. -/
theorem extract_count_characterization :
    (∀ kvs v, alookup "count" kvs = some v →
        SnapshotManager.extract_count (.dict kvs) = some v)
    ∧ (∀ kvs processed, alookup "count" kvs = Option.none →
        alookup "processed_data" kvs = some (.dict processed) →
        SnapshotManager.extract_count (.dict kvs) = SnapshotManager.firstTotalInt processed)
    ∧ (∀ p v, SnapshotManager.firstTotalInt p = some v ↔
        ∃ p1 k p2, p = p1 ++ (k, v) :: p2
          ∧ pyContains "total" (pyLower k) = true ∧ pyIsInt v = true
          ∧ ∀ q ∈ p1, ¬(pyContains "total" (pyLower q.1) = true ∧ pyIsInt q.2 = true))
    ∧ (∀ bdata cdata key bval cval,
        alookup key bdata = some bval → alookup key cdata = some cval →
        (SnapshotManager.extract_count bval = Option.none
          ∨ SnapshotManager.extract_count cval = Option.none) →
        SnapshotManager.compareKeyStep bdata cdata key = some []) := by
  refine ⟨?_, ?_, firstTotalInt_eq_some_iff, ?_⟩
  · intro kvs v h
    show (match alookup "count" kvs with
      | some w => some w
      | Option.none =>
          match alookup "processed_data" kvs with
          | some (.dict processed) => SnapshotManager.firstTotalInt processed
          | _ => Option.none) = some v
    rw [h]
  · intro kvs processed h hp
    show (match alookup "count" kvs with
      | some w => some w
      | Option.none =>
          match alookup "processed_data" kvs with
          | some (.dict processed) => SnapshotManager.firstTotalInt processed
          | _ => Option.none) = SnapshotManager.firstTotalInt processed
    rw [h, hp]
  · intro bdata cdata key bval cval hb hc hnone
    rw [compareKeyStep_present bdata cdata key bval cval hb hc]
    rcases hnone with hnone | hnone
    · rw [hnone]
    · rw [hnone]
      cases hbv : SnapshotManager.extract_count bval
      all_goals rfl

/-- Witness for the amended count heuristic: a top-level count field wins
outright, and otherwise the first integer total field of processed_data
is used. -/
theorem extract_count_characterization_witness :
    SnapshotManager.extract_count (.dict [("count", .int 5)]) = some (.int 5)
    ∧ SnapshotManager.extract_count
        (.dict [("processed_data",
          .dict [("up_interfaces", .int 40), ("total_interfaces", .int 48)])])
        = some (.int 48)
    ∧ SnapshotManager.compareKeyStep
        [("vpc", .dict [("processed_data", .dict [("vpc_status", .str "up")])])]
        [("vpc", .dict [("processed_data", .dict [("vpc_status", .str "down")])])]
        "vpc" = some [] := by
  refine ⟨extract_count_characterization.1 [("count", .int 5)] (.int 5) rfl, ?_, ?_⟩
  · rw [extract_count_characterization.2.1
      [("processed_data",
        .dict [("up_interfaces", .int 40), ("total_interfaces", .int 48)])]
      [("up_interfaces", .int 40), ("total_interfaces", .int 48)] rfl rfl]
    rfl
  · exact extract_count_characterization.2.2.2 _ _ "vpc" _ _ rfl rfl (Or.inl rfl)

/-- C6: list() returns the stored snapshots sorted by creation time with
the newest first, whatever order the directory iteration yields them in;
after creating s1 and then s2 later in time, list() returns [s2, s1]. -/
theorem list_snapshots_newest_first (found : List SnapshotManager.SnapshotInfo) :
    (SnapshotManager.list_snapshots found).Pairwise (fun a b => b.created ≤ a.created)
    ∧ (SnapshotManager.list_snapshots found).Perm found
    ∧ SnapshotManager.list_snapshots [snap1, snap2] = [snap2, snap1]
    ∧ SnapshotManager.list_snapshots [snap2, snap1] = [snap2, snap1]
    ∧ SnapshotManager.find_baseline_snapshot [snap1, snap2] = some snap2 :=
  ⟨List.sorted_insertionSort _ found, List.perm_insertionSort _ found,
    by decide, by decide, by decide⟩

/-! ### Lemmas about the interface parser -/

theorem wordsAux_nil_of_all_space (cs : List Char)
    (h : ∀ c ∈ cs, pyIsSpace c = true) : wordsAux [] cs = [] := by
  induction cs with
  | nil => rfl
  | cons c cs ih =>
      have hc := h c (List.mem_cons_self c cs)
      simp only [wordsAux, hc, if_true, List.isEmpty_nil, if_pos]
      exact ih (fun x hx => h x (List.mem_cons_of_mem c hx))

theorem all_space_of_stripBy_nil (cs : List Char)
    (h : stripBy pyIsSpace cs = []) : ∀ c ∈ cs, pyIsSpace c = true := by
  unfold stripBy at h
  rw [List.reverse_eq_nil_iff, List.dropWhile_eq_nil_iff] at h
  intro c hc
  rw [show cs = cs.takeWhile pyIsSpace ++ cs.dropWhile pyIsSpace from
    (List.takeWhile_append_dropWhile pyIsSpace cs).symm] at hc
  rcases List.mem_append.mp hc with hc | hc
  · exact List.mem_takeWhile_imp hc
  · exact h c (List.mem_reverse.mpr hc)

theorem pySplitWs_nil_of_strip_empty (l : String) (h : pyStrip l = "") :
    pySplitWs l = [] := by
  have hdata : stripBy pyIsSpace l.data = [] := congrArg String.data h
  unfold pySplitWs
  rw [wordsAux_nil_of_all_space l.data (all_space_of_stripBy_nil l.data hdata)]
  rfl

theorem keptLine_eq_length_guard (l : String) :
    LeafCollector.keptLine l = decide (4 ≤ (pySplitWs l).length) := by
  unfold LeafCollector.keptLine
  by_cases h4 : 4 ≤ (pySplitWs l).length
  · have hne : pyStrip l ≠ "" := by
      intro hcontra
      rw [pySplitWs_nil_of_strip_empty l hcontra] at h4
      simp at h4
    simp [h4, hne]
  · simp [h4]

/-- C10: the normalized leaf interface result satisfies
up_interfaces ≤ total_interfaces, total_interfaces is the number of
parsed data lines (non-header lines with at least 4 fields), and
up_interfaces counts exactly the parsed interfaces whose status contains
"connected" case-insensitively; on a fixture with three data rows of
which two are connected, the counts are 3 and 2. -/
theorem parse_interface_status_invariant (output : String) :
    (LeafCollector.parse_interface_status output).up_interfaces
        ≤ (LeafCollector.parse_interface_status output).total_interfaces
    ∧ (LeafCollector.parse_interface_status output).total_interfaces
        = claimDataLineCount output
    ∧ (LeafCollector.parse_interface_status output).up_interfaces
        = ((LeafCollector.parse_interface_status output).interfaces.filter
            LeafCollector.isConnected).length
    ∧ (LeafCollector.parse_interface_status
        "Port       Status       Vlan  Duplex\n------------------------------------\nEth1/1     connected    10    full\nEth1/2     notconnect   1     auto\nEth1/3     connected    20    full").total_interfaces = 3
    ∧ (LeafCollector.parse_interface_status
        "Port       Status       Vlan  Duplex\n------------------------------------\nEth1/1     connected    10    full\nEth1/2     notconnect   1     auto\nEth1/3     connected    20    full").up_interfaces = 2 := by
  refine ⟨?_, ?_, rfl, by decide, by decide⟩
  · exact List.length_filter_le _ _
  · show (((LeafCollector.dataLines output).filter LeafCollector.keptLine).map
        LeafCollector.parseLine).length = claimDataLineCount output
    rw [List.length_map]
    unfold LeafCollector.dataLines claimDataLineCount
    rw [List.filter_filter]
    congr 1
    apply List.filter_congr
    intro l hl
    rw [keptLine_eq_length_guard l]
    simp [Bool.and_comm, Bool.and_left_comm, Bool.and_assoc]

/-- Field characterization of a successfully parsed host: the priority
and node_id fields come from the params dict through the int parser. -/
theorem parse_ini_host_fields (host : SharedUtils.HostLine) (d : Shared.DeviceInfo)
    (hd : InventoryParser.parse_ini_host host = some d) :
    d.priority
        = (match InventoryParser.lastLookup "priority" (InventoryParser.hostParams host) with
          | some v => (InventoryParser.pyInt v).getD 1
          | Option.none => 1)
    ∧ d.node_id
        = (match InventoryParser.lastLookup "node_id" (InventoryParser.hostParams host) with
          | some v => InventoryParser.pyInt v
          | Option.none => Option.none) := by
  unfold InventoryParser.parse_ini_host at hd
  rcases hws : pySplitWs host.line with - | ⟨hostname, rest⟩
  · rw [hws] at hd
    exact Option.noConfusion hd
  · rw [hws] at hd
    rcases hsec : host.sectionName with - | sec
    · rw [hsec] at hd
      exact Option.noConfusion hd
    · rw [hsec] at hd
      simp only [Shared.mkDeviceInfo] at hd
      split_ifs at hd with hname hapic <;>
        first
          | exact Option.noConfusion hd
          | (injection hd with hd
             subst hd
             exact ⟨rfl, rfl⟩)

/-- C7: the flat-text inventory fixture parses to exactly one device
with role leaf (inferred from the section header substring), node_id
201, priority 1 and hostname "leaf1"; and on every parsed host line the
node_id= and priority= keys parse as integers when present, with
priority defaulting to 1 when the key is absent. -/
theorem inventory_flat_text_parse (host : SharedUtils.HostLine) (d : Shared.DeviceInfo)
    (hd : InventoryParser.parse_ini_host host = some d) :
    (InventoryParser.lastLookup "priority" (InventoryParser.hostParams host) = Option.none →
        d.priority = 1)
    ∧ (∀ v n, InventoryParser.lastLookup "priority" (InventoryParser.hostParams host) = some v →
        InventoryParser.pyInt v = some n → d.priority = n)
    ∧ (∀ v n, InventoryParser.lastLookup "node_id" (InventoryParser.hostParams host) = some v →
        InventoryParser.pyInt v = some n → d.node_id = some n)
    ∧ (InventoryParser.parse_ini_file iniFixture).leaf_devices = [leaf1Device]
    ∧ (InventoryParser.parse_ini_file iniFixture).apic_devices = []
    ∧ (InventoryParser.parse_ini_file iniFixture).spine_devices = []
    ∧ (InventoryParser.parse_ini_file iniFixture).other_devices = []
    ∧ (InventoryParser.parse_ini_file iniFixture).total_devices = 1 := by
  obtain ⟨hpri, hnode⟩ := parse_ini_host_fields host d hd
  refine ⟨?_, ?_, ?_, by decide, by decide, by decide, by decide, by decide⟩
  · intro hnone
    rw [hpri, hnone]
  · intro v n hv hn
    rw [hpri, hv]
    show (InventoryParser.pyInt v).getD 1 = n
    rw [hn]
    rfl
  · intro v n hv hn
    rw [hnode, hv]
    show InventoryParser.pyInt v = some n
    exact hn

/-- Witness: the fixture's own host line, parsed, has priority 1 from
the priority=1 key and node_id 201 from the node_id=201 key. -/
theorem inventory_flat_text_parse_witness :
    leaf1Device.priority = 1 ∧ leaf1Device.node_id = some 201 := by
  have h := inventory_flat_text_parse
    { name := "leaf1", sectionName := some "leaves_pod_1"
      line := "leaf1 ansible_host=10.0.0.1 node_id=201 priority=1" }
    leaf1Device (by decide)
  exact ⟨h.2.1 "1" 1 (by decide) (by decide), h.2.2.1 "201" 201 (by decide) (by decide)⟩
